import Mathlib

/-
Verification development for the LuaWebSocket client wrapper.

The embedding translates the two source files of the core:
  src/LuaWebsocket/WebSocket.h / WebSocket.cpp  (class WebSocket)
  src/LuaWebSocket/LuaWebSocket.cpp             (Lua embedding layer)

The WebSocket class keeps two pieces of mutable state:
  Client::connection_ptr m_connection  (a shared pointer, null until connect runs)
  std::queue<std::string> m_messages   (FIFO inbound buffer)
The connection handle is observed only through get_state(), so it is modelled
as Option SessionState: none is a null connection_ptr, some s is a live handle
whose get_state() returns s.  The queue is a List String with the front of the
std::queue at the head and push appending at the tail.

Blocking methods (connect, receive) poll shared state that the network thread
mutates between polls.  They are modelled as functions of the shared state
observed when the poll loop exits; an outcome constructor records the case in
which the loop guard still holds (the call is suspended).
-/

namespace LuaWebSocket

/-- Session states of a websocketpp connection, as read by get_state(). -/
inductive SessionState where
  | connecting
  | open_
  | closing
  | closed
deriving DecidableEq, Repr

/-- State of one WebSocket object: the connection handle (none while the
connection_ptr is still null, i.e. before any connect) and the inbound
message queue m_messages, front at the head. -/
structure WebSocket where
  m_connection : Option SessionState
  m_messages : List String
deriving DecidableEq, Repr

/-- Faults of the embedded code that C++ leaves undefined: dereferencing a
null connection_ptr, or calling front() on an empty queue. -/
inductive Fault where
  | nullDeref
deriving DecidableEq, Repr

/-- Method hasMessage: return m_messages.size() > 0.  The body reads the
queue and touches no other state. -/
def hasMessage (ws : WebSocket) : Bool :=
  decide (ws.m_messages.length > 0)

/-- Method isConnected: return m_connection->get_state() != session::state::closed.
The handle is dereferenced with no null check. -/
def isConnected (ws : WebSocket) : Except Fault Bool :=
  match ws.m_connection with
  | none => Except.error Fault.nullDeref
  | some s => Except.ok (decide (s ≠ SessionState.closed))

/-- Method send: m_connection->send(msg).  The frame is handed to the
transport engine; no client-side state changes.  The handle is dereferenced
with no null check. -/
def send (ws : WebSocket) (msg : String) : Except Fault WebSocket :=
  match ws.m_connection with
  | none => Except.error Fault.nullDeref
  | some _ => Except.ok ws

/-- Message handler onMessage, registered with the transport engine and run on
the network thread once per inbound frame: m_messages.push(msg->get_payload()),
an append at the tail of the queue. -/
def onMessage (ws : WebSocket) (payload : String) : WebSocket :=
  { ws with m_messages := ws.m_messages ++ [payload] }

/-- Method close: m_connection->close(normal, ""), then m_run_thread.join()
(the join returns only once the engine event loop has stopped, at which point
the session state is closed), then m_messages = {}.  The handle is
dereferenced with no null check. -/
def close (ws : WebSocket) : Except Fault WebSocket :=
  match ws.m_connection with
  | none => Except.error Fault.nullDeref
  | some _ => Except.ok ⟨some SessionState.closed, []⟩

/-- Transition performed by the transport engine on the network thread when
the remote peer closes the connection: get_state() becomes closed.  The
method close() does not run, so m_messages is not purged. -/
def peerClose (ws : WebSocket) : WebSocket :=
  match ws.m_connection with
  | none => ws
  | some _ => { ws with m_connection := some SessionState.closed }

/-- Outcome of one call to receive, evaluated on the shared state observed
when its poll loop exits. -/
inductive ReceiveOutcome where
  | result (msg : Option String) (ws : WebSocket)
  | blocked
  | fault
deriving DecidableEq, Repr

/-- Method receive:
  while (!hasMessage() && isConnected()) sleep(BLOCK_CHECK_INTERVAL);
  if (!isConnected()) return \x7b\x7d;
  msg = m_messages.front(); m_messages.pop(); return msg;
With m_connection = some s, isConnected() is (s != closed).  When the loop
guard holds the call stays suspended (blocked).  A null handle is dereferenced
by isConnected() in the guard or in the following if, hence fault.  The final
list match mirrors front()/pop(); its empty case is front() on an empty queue
(undefined in C++, unreachable under the guards). -/
def receive (ws : WebSocket) : ReceiveOutcome :=
  match ws.m_connection with
  | none => ReceiveOutcome.fault
  | some s =>
    if !hasMessage ws && decide (s ≠ SessionState.closed) then
      ReceiveOutcome.blocked
    else if s = SessionState.closed then
      ReceiveOutcome.result none ws
    else
      match ws.m_messages with
      | [] => ReceiveOutcome.fault
      | m :: rest => ReceiveOutcome.result (some m) { ws with m_messages := rest }

/-- Run n successive receive calls, collecting the returned values; stops if a
call suspends or faults. -/
def receiveAll : Nat → WebSocket → List (Option String) × WebSocket
  | 0, ws => ([], ws)
  | Nat.succ n, ws =>
    match receive ws with
    | ReceiveOutcome.result m ws2 =>
      let p := receiveAll n ws2
      (m :: p.1, p.2)
    | _ => ([], ws)

/-- Destructor of WebSocket: if (isConnected()) close();  isConnected() is
called unconditionally, dereferencing the handle even when connect never ran. -/
def destruct (ws : WebSocket) : Except Fault Unit :=
  match isConnected ws with
  | Except.error f => Except.error f
  | Except.ok true =>
    match close ws with
    | Except.error f => Except.error f
    | Except.ok _ => Except.ok ()
  | Except.ok false => Except.ok ()

/-- Result reported by Client::get_connection(uri, err): either err is set
(the uri is malformed or cannot be resolved) and a null connection_ptr is
returned, or a fresh handle in state connecting is returned. -/
inductive GetConnectionResult where
  | err (msg : String)
  | ok
deriving DecidableEq, Repr

/-- Caller-visible outcome of connect.  The constructor connectionError is
the signal the design documents require for a failed open; it is listed so
that its absence from the behaviour of the source is expressible.  fault
records a null-handle dereference (undefined behaviour); blocked records the
poll loop never exiting.  The first component of done and fault is the text
written to stdout. -/
inductive ConnectOutcome where
  | done (log : List String) (ws : WebSocket)
  | blocked (log : List String)
  | connectionError (msg : String)
  | fault (log : List String)
deriving DecidableEq, Repr

/-- Method connect(uri):
  m_connection = m_client.get_connection(uri, err);
  if (err) std::cout << err.message();          // log only, then continue
  m_connection->set_message_handler(...);        // null handle when err was set
  m_client.connect(m_connection); start run thread;
  while (get_state() == connecting) sleep(BLOCK_CHECK_INTERVAL);
res is the engine resolution result; handshake is the session state observed
when the poll loop exits (supplied by the engine on the network thread:
open_ on success, closed on a failed open; connecting means the loop never
exits).  m_messages is not touched anywhere in the body. -/
def connect (ws : WebSocket) (res : GetConnectionResult) (handshake : SessionState) :
    ConnectOutcome :=
  match res with
  | GetConnectionResult.err m => ConnectOutcome.fault [m]
  | GetConnectionResult.ok =>
    if handshake = SessionState.connecting then
      ConnectOutcome.blocked []
    else
      ConnectOutcome.done [] { ws with m_connection := some handshake }

/-- C1: with the connection closed and a message still queued, receive is
claimed to dequeue and return that message.  The source instead returns an
empty optional and leaves the queue untouched: after the loop it checks
isConnected() before ever looking at the queue.  The state is reached by a
frame arriving and the peer then closing the connection. -/
theorem C1_receive_drops_queued_message_when_closed :
    receive (peerClose (onMessage ⟨some SessionState.open_, []⟩ "hello")) =
      ReceiveOutcome.result none ⟨some SessionState.closed, ["hello"]⟩ := by
  rfl

/-- C2: messages a, b are appended by onMessage before closure; the claim says
two successive receive calls return a then b.  After the peer closes, the
source returns an empty optional twice and the queue keeps both messages. -/
theorem C2_receive_loses_fifo_messages_across_peer_close :
    receiveAll 2 (peerClose (onMessage (onMessage ⟨some SessionState.open_, []⟩ "a") "b")) =
      ([none, none], ⟨some SessionState.closed, ["a", "b"]⟩) := by
  rfl

/-- C3: the claim says the inbound queue is cleared at the start of every
connect, so no message of a previous session is observable.  The body of
connect never touches m_messages: after a peer-initiated closure left "stale"
queued, a new connect that reaches open_ still holds "stale", and the first
receive of the new session returns it. -/
theorem C3_connect_preserves_stale_queue :
    connect (peerClose (onMessage ⟨some SessionState.open_, []⟩ "stale"))
        GetConnectionResult.ok SessionState.open_ =
      ConnectOutcome.done [] ⟨some SessionState.open_, ["stale"]⟩ ∧
    receive ⟨some SessionState.open_, ["stale"]⟩ =
      ReceiveOutcome.result (some "stale") ⟨some SessionState.open_, []⟩ := by
  exact ⟨rfl, rfl⟩

/-- C4: the claim says connect on an unresolvable target surfaces a
ConnectionError to the caller.  The source only writes err.message() to
stdout and continues, dereferencing the null handle returned by
get_connection; no ConnectionError ever reaches the caller. -/
theorem C4_connect_logs_resolution_error_without_surfacing :
    connect ⟨none, []⟩ (GetConnectionResult.err "resolution failed") SessionState.open_ =
      ConnectOutcome.fault ["resolution failed"] ∧
    ∀ m, connect ⟨none, []⟩ (GetConnectionResult.err "resolution failed") SessionState.open_ ≠
      ConnectOutcome.connectionError m := by
  refine ⟨rfl, ?_⟩
  intro m h
  simp [connect] at h

/-- C5: when the connection is closed and the queue is drained, receive
returns an empty optional (the closure signal); no error is raised, and in
particular no fault and no suspension occurs. -/
theorem C5_receive_closed_drained_returns_none :
    ∀ ws : WebSocket, ws.m_connection = some SessionState.closed → ws.m_messages = [] →
      receive ws = ReceiveOutcome.result none ws := by
  intro ws hc hm
  obtain ⟨c, msgs⟩ := ws
  simp only at hc hm
  subst hc
  subst hm
  rfl

/-- Witness for C5 at the concrete drained, closed state. -/
theorem C5_witness :
    receive ⟨some SessionState.closed, []⟩ =
      ReceiveOutcome.result none ⟨some SessionState.closed, []⟩ :=
  C5_receive_closed_drained_returns_none ⟨some SessionState.closed, []⟩ rfl rfl

/-- C6: isConnected returns true exactly when the session state is not
closed; in particular it returns true in states connecting and closing. -/
theorem C6_isConnected_true_iff_state_not_closed :
    ∀ (s : SessionState) (msgs : List String),
      (isConnected ⟨some s, msgs⟩ = Except.ok true ↔ s ≠ SessionState.closed) ∧
      isConnected ⟨some SessionState.connecting, msgs⟩ = Except.ok true ∧
      isConnected ⟨some SessionState.closing, msgs⟩ = Except.ok true := by
  intro s msgs
  refine ⟨?_, rfl, rfl⟩
  cases s <;> simp [isConnected]

/-- Witness for C6 at the state closing. -/
theorem C6_witness :
    isConnected ⟨some SessionState.closing, []⟩ = Except.ok true :=
  (C6_isConnected_true_iff_state_not_closed SessionState.closing []).2.2

/-- C7: hasMessage is true exactly when the queue is non-empty, and whenever
it is true the immediately following receive call returns without suspending:
the loop guard (!hasMessage() && isConnected()) is false, so the body runs at
once and produces a result. -/
theorem C7_hasMessage_iff_nonempty_and_receive_immediate :
    ∀ (s : SessionState) (msgs : List String),
      (hasMessage ⟨some s, msgs⟩ = true ↔ msgs ≠ []) ∧
      (hasMessage ⟨some s, msgs⟩ = true →
        ∃ m ws2, receive ⟨some s, msgs⟩ = ReceiveOutcome.result m ws2) := by
  intro s msgs
  constructor
  · simp [hasMessage, List.length_pos]
  · intro h
    cases msgs with
    | nil => simp [hasMessage] at h
    | cons m rest =>
      by_cases hs : s = SessionState.closed
      · subst hs
        exact ⟨none, ⟨some SessionState.closed, m :: rest⟩, by simp [receive, hasMessage]⟩
      · exact ⟨some m, ⟨some s, rest⟩, by simp [receive, hasMessage, hs]⟩

/-- Witness for C7 at a live open connection holding one message. -/
theorem C7_witness :
    hasMessage ⟨some SessionState.open_, ["x"]⟩ = true ∧
    ∃ m ws2, receive ⟨some SessionState.open_, ["x"]⟩ = ReceiveOutcome.result m ws2 :=
  ⟨by decide,
    (C7_hasMessage_iff_nonempty_and_receive_immediate SessionState.open_ ["x"]).2 (by decide)⟩

/-- One call of hasMessage viewed as a state operation: the body returns
m_messages.size() > 0 and contains no assignment, so the post-state is the
object unchanged. -/
def hasMessageOp (ws : WebSocket) : Bool × WebSocket :=
  (hasMessage ws, ws)

/-- n successive hasMessage calls with no intervening receive, threading the
object state through each call and collecting the returned booleans. -/
def hasMessageN : Nat → WebSocket → List Bool × WebSocket
  | 0, ws => ([], ws)
  | Nat.succ n, ws =>
    let p := hasMessageOp ws
    let q := hasMessageN n p.2
    (p.1 :: q.1, q.2)

/-- C8: any number of repeated hasMessage calls leaves the queue and its
order unchanged and every call returns the same boolean. -/
theorem C8_hasMessage_idempotent_pure :
    ∀ (n : Nat) (ws : WebSocket),
      hasMessageN n ws = (List.replicate n (hasMessage ws), ws) := by
  intro n ws
  induction n with
  | zero => rfl
  | succ k ih => simp [hasMessageN, hasMessageOp, ih, List.replicate]

/-- Lua value tags, as returned by lua_type for the arguments on the stack. -/
inductive LuaType where
  | nil_
  | boolean
  | lightuserdata
  | number
  | string_
  | table
  | function_
  | userdata
  | thread
deriving DecidableEq, Repr

/-- Errors the Lua wrapper raises through lua_error: a wrong argument count,
a wrong argument type at a 1-based position, or the what() text of a caught
websocketpp exception. -/
inductive LuaError where
  | badArgCount (expected actual : Nat)
  | badArgType (index : Nat) (expected actual : LuaType)
  | raised (what : String)
deriving DecidableEq, Repr

/-- Loop of hasArgTypes: compare lua_type(L, i+1) with arg_types[i] for i
from 0 upward and raise on the first mismatch (lua_error performs a long
jump, so later indices are not inspected). -/
def firstTypeMismatch : List LuaType → List LuaType → Nat → Option LuaError
  | a :: as, e :: es, i =>
    if a ≠ e then some (LuaError.badArgType (i + 1) e a)
    else firstTypeMismatch as es (i + 1)
  | _, _, _ => none

/-- Function hasArgTypes(L, arg_types): raise a Lua error if the number of
stack arguments differs from arg_types.size(), otherwise raise on the first
argument whose lua_type differs from the expected one; return none when the
arguments validate. -/
def hasArgTypes (args arg_types : List LuaType) : Option LuaError :=
  if args.length ≠ arg_types.length then
    some (LuaError.badArgCount arg_types.length args.length)
  else
    firstTypeMismatch args arg_types 0

/-- Expected argument types of each entry of method_map in LuaWebSocket.cpp:
every wrapper first passes this list to hasArgTypes. -/
def method_map_arg_types : String → Option (List LuaType)
  | "connect" => some [LuaType.lightuserdata, LuaType.string_]
  | "close" => some [LuaType.lightuserdata]
  | "isConnected" => some [LuaType.lightuserdata]
  | "send" => some [LuaType.lightuserdata, LuaType.string_]
  | "receive" => some [LuaType.lightuserdata]
  | "hasMessage" => some [LuaType.lightuserdata]
  | _ => none

/-- Outcome of one wrapped call: whether the underlying WebSocket method ran,
and the result the Lua caller sees. -/
structure WrapResult (α : Type) where
  coreInvoked : Bool
  result : Except LuaError α

/-- Shape shared by every method_map wrapper: run hasArgTypes first (a
failure raises a Lua error by long jump, so the WebSocket method is never
reached), then run the method inside try/catch, turning a caught
websocketpp exception ex into lua_error(ex.what()). -/
def wrapMethod {α : Type} (expected args : List LuaType) (core : Except String α) :
    WrapResult α :=
  match hasArgTypes args expected with
  | some e => ⟨false, Except.error e⟩
  | none =>
    match core with
    | Except.error what => ⟨true, Except.error (LuaError.raised what)⟩
    | Except.ok a => ⟨true, Except.ok a⟩

/-- The type loop reports no mismatch exactly when the two lists agree
pointwise, for lists of equal length. -/
theorem firstTypeMismatch_eq_none_iff :
    ∀ (as es : List LuaType) (i : Nat), as.length = es.length →
      (firstTypeMismatch as es i = none ↔ as = es) := by
  intro as
  induction as with
  | nil =>
    intro es i h
    cases es with
    | nil => simp [firstTypeMismatch]
    | cons e es => simp at h
  | cons a as ih =>
    intro es i h
    cases es with
    | nil => simp at h
    | cons e es =>
      simp only [List.length_cons, Nat.succ.injEq] at h
      by_cases hae : a = e
      · subst hae
        simp [firstTypeMismatch, ih es (i + 1) h]
      · simp [firstTypeMismatch, hae]

/-- Argument validation accepts exactly the expected signature. -/
theorem hasArgTypes_eq_none_iff (args expected : List LuaType) :
    hasArgTypes args expected = none ↔ args = expected := by
  unfold hasArgTypes
  by_cases h : args.length = expected.length
  · simp [h, firstTypeMismatch_eq_none_iff args expected 0 h]
  · simp only [h, ne_eq, not_false_eq_true, if_true, reduceCtorEq, false_iff]
    intro he
    exact h (by rw [he])

/-- C9: for every wrapped operation of method_map, arguments that differ from
the expected signature (in count or in some type) make the wrapper raise a
Lua error without invoking the WebSocket method; matching arguments reach the
method; and a websocketpp exception thrown by the method is translated into a
Lua error carrying its what() text. -/
theorem C9_wrapper_validates_args_and_translates_errors :
    ∀ (name : String) (expected : List LuaType),
      method_map_arg_types name = some expected →
      ∀ (args : List LuaType) (core : Except String Unit),
        (args ≠ expected →
          (wrapMethod expected args core).coreInvoked = false ∧
          ∃ e, (wrapMethod expected args core).result = Except.error e) ∧
        (args = expected → (wrapMethod expected args core).coreInvoked = true) ∧
        (∀ w, args = expected → core = Except.error w →
          (wrapMethod expected args core).result = Except.error (LuaError.raised w)) := by
  intro name expected _ args core
  refine ⟨?_, ?_, ?_⟩
  · intro hne
    have hsome : hasArgTypes args expected ≠ none := by
      rw [Ne, hasArgTypes_eq_none_iff]
      exact hne
    obtain ⟨e, he⟩ := Option.ne_none_iff_exists'.mp hsome
    simp [wrapMethod, he]
  · intro heq
    have hnone : hasArgTypes args expected = none :=
      (hasArgTypes_eq_none_iff args expected).mpr heq
    cases core <;> simp [wrapMethod, hnone]
  · intro w heq hcore
    have hnone : hasArgTypes args expected = none :=
      (hasArgTypes_eq_none_iff args expected).mpr heq
    simp [wrapMethod, hnone, hcore]

/-- Witness for C9: the connect wrapper, called with no arguments, raises a
Lua error and never reaches WebSocket::connect. -/
theorem C9_witness :
    method_map_arg_types "connect" = some [LuaType.lightuserdata, LuaType.string_] ∧
    (wrapMethod [LuaType.lightuserdata, LuaType.string_] [] (Except.ok ())).coreInvoked = false :=
  ⟨rfl,
    ((C9_wrapper_validates_args_and_translates_errors "connect"
        [LuaType.lightuserdata, LuaType.string_] rfl [] (Except.ok ())).1 (by decide)).1⟩

/-- C10: with a null handle (connect never ran), isConnected, send, close,
receive and the destructor all dereference m_connection and fault, while
hasMessage reads only the queue and is insensitive to the handle; once
connect has produced a handle, the destructor never reaches the null
dereference. -/
theorem C10_null_handle_preconditions :
    ∀ (msgs : List String) (m : String),
      isConnected ⟨none, msgs⟩ = Except.error Fault.nullDeref ∧
      send ⟨none, msgs⟩ m = Except.error Fault.nullDeref ∧
      close ⟨none, msgs⟩ = Except.error Fault.nullDeref ∧
      receive ⟨none, msgs⟩ = ReceiveOutcome.fault ∧
      destruct ⟨none, msgs⟩ = Except.error Fault.nullDeref ∧
      (∀ c c', hasMessage ⟨c, msgs⟩ = hasMessage ⟨c', msgs⟩) ∧
      (∀ s, destruct ⟨some s, msgs⟩ = Except.ok ()) := by
  intro msgs m
  refine ⟨rfl, rfl, rfl, rfl, rfl, fun c c' => rfl, ?_⟩
  intro s
  cases s <;> rfl

end LuaWebSocket
